import Mathlib

/-!
Verification development for vmtest/vm.py: the VM lifecycle orchestration of
the drgn test runner.  The Python source is shallowly embedded below; bytes
are modelled as natural numbers below 256, byte strings as lists of such
numbers, and the stateful parts of run_in_vm as explicit functions of an
environment record describing what the operating system delivers (hypervisor
version output, socket events, file timestamps, host environment variables).
-/

set_option maxRecDepth 4096

deriving instance DecidableEq for Except

/-! ## Bytes and Python byte-string primitives -/

/-- A byte is modelled as a natural number (values of interest are < 256). -/
abbrev Byte := Nat

/-- Byte string of a Lean string literal (all our literals are ASCII). -/
def strB (s : String) : List Byte :=
  s.toList.map Char.toNat

/-- Whether a byte is an ASCII decimal digit, as tested by bytes.isdigit. -/
def isDigitByte (b : Byte) : Bool :=
  decide (48 ≤ b ∧ b ≤ 57)

/-- Python bytes.isdigit: true iff the byte string is nonempty and every
byte is an ASCII decimal digit. -/
def pyIsdigit (bs : List Byte) : Bool :=
  !bs.isEmpty && bs.all isDigitByte

/-- ASCII whitespace bytes stripped by Python int() before parsing. -/
def isPySpace (b : Byte) : Bool :=
  b == 32 || b == 9 || b == 10 || b == 13 || b == 11 || b == 12

/-- Numeric value of a list of ASCII digit bytes, most significant first. -/
def digitsVal (bs : List Byte) : Nat :=
  bs.foldl (fun acc b => acc * 10 + (b - 48)) 0

/-- Python int() applied to a byte string, restricted to the unsigned forms
that can reach it in vm.py (the caller has already checked that the bytes
are digits plus a trailing newline, so sign characters and underscore
separators never occur): strip ASCII whitespace from both ends, then require
a nonempty run of decimal digits; anything else raises ValueError (none). -/
def pyIntBytes (bs : List Byte) : Option Nat :=
  let t := ((bs.dropWhile isPySpace).reverse.dropWhile isPySpace).reverse
  if !t.isEmpty && t.all isDigitByte then some (digitsVal t) else none

/-- Lowercase hexadecimal digit character, as used by Python repr escapes. -/
def hexDigitChar (n : Nat) : Char :=
  if n < 10 then Char.ofNat (48 + n) else Char.ofNat (87 + n)

/-- Concatenation of a list of lists. -/
def catLists {α : Type} : List (List α) → List α
  | [] => []
  | l :: ls => l ++ catLists ls

/-- How CPython renders one byte inside repr(bytearray(...)) given the
chosen quote byte q: backslash and the quote are backslash-escaped, tab,
newline and carriage return use two-character escapes, other printable
ASCII bytes stand for themselves, and everything else becomes a lowercase
hexadecimal escape. -/
def pyByteEscape (q b : Byte) : List Char :=
  if b = 92 then [Char.ofNat 92, Char.ofNat 92]
  else if b = q then [Char.ofNat 92, Char.ofNat q]
  else if b = 9 then [Char.ofNat 92, Char.ofNat 116]
  else if b = 10 then [Char.ofNat 92, Char.ofNat 110]
  else if b = 13 then [Char.ofNat 92, Char.ofNat 114]
  else if 32 ≤ b ∧ b ≤ 126 then [Char.ofNat b]
  else [Char.ofNat 92, Char.ofNat 120, hexDigitChar (b / 16), hexDigitChar (b % 16)]

/-- The slice repr(status_buf)[11:-1] taken by vm.py line 278: repr of a
bytearray is the text bytearray(b QUOTE escaped-bytes QUOTE RPAREN, and the
slice keeps exactly QUOTE escaped-bytes QUOTE.  CPython quotes with a double
quote when the bytes contain a single quote but no double quote, and with a
single quote otherwise. -/
def pyBytesReprContent (bs : List Byte) : String :=
  let q : Byte := if bs.contains 39 && !(bs.contains 34) then 34 else 39
  String.mk (Char.ofNat q :: (catLists (bs.map (pyByteEscape q)) ++ [Char.ofNat q]))

/-! ## Error taxonomy of run_in_vm -/

/-- Exceptions run_in_vm can raise: LostVMError (vm.py line 171) and the
plain Exception used when the QEMU version cannot be determined. -/
inductive VmErr where
  | lostVM (msg : String)
  | exception (msg : String)
  deriving DecidableEq

/-! ## Status validation (vm.py lines 275-279) -/

/-- Host-side validation of the accumulated control-channel buffer,
translated from vm.py lines 275-279:

  if not status_buf: raise LostVMError(VM did not return status)
  if status_buf[-1] != ord newline or not status_buf[:-1].isdigit():
      raise LostVMError(VM returned invalid status: + repr(status_buf)[11:-1])
  return int(status_buf)

The final int() never fails on a buffer that passed the checks; its
hypothetical ValueError is kept as an explicit branch for fidelity. -/
def validateStatus (status_buf : List Byte) : Except VmErr Nat :=
  if h : status_buf = [] then
    Except.error (VmErr.lostVM "VM did not return status")
  else if status_buf.getLast h ≠ 10 ∨ pyIsdigit status_buf.dropLast = false then
    Except.error
      (VmErr.lostVM ("VM returned invalid status: " ++ pyBytesReprContent status_buf))
  else
    match pyIntBytes status_buf with
    | some n => Except.ok n
    | none => Except.error (VmErr.exception "ValueError")

/-- Encoding written by the guest init script (vm.py line 123,
echo rc > /dev/vport): the decimal digits of the status followed by one
newline byte. -/
def encodeStatus (n : Nat) : List Byte :=
  strB (Nat.repr n) ++ [10]

example : validateStatus (encodeStatus 7) = Except.ok 7 := by decide
example : validateStatus (encodeStatus 255) = Except.ok 255 := by decide
example : validateStatus (strB "12") =
    Except.error (VmErr.lostVM ("VM returned invalid status: " ++ pyBytesReprContent (strB "12"))) := by
  decide

/-! ## Python tuple comparison on version tuples -/

/-- Python lexicographic comparison of integer tuples (shorter tuple that is
a prefix of the longer compares less), as used by the comparisons
qemu_version >= (4, 2) and qemu_version < (5, 0, 1) in vm.py. -/
def pyTupleLt : List Nat → List Nat → Bool
  | [], [] => false
  | [], _ :: _ => true
  | _ :: _, [] => false
  | a :: as, b :: bs =>
    if a < b then true else if b < a then false else pyTupleLt as bs

/-- Python a >= b on tuples: tuple order is total, so a >= b iff not a < b. -/
def pyTupleGe (a b : List Nat) : Bool :=
  !pyTupleLt a b

/-- Feature flag from vm.py line 187: multidevs=remap is appended to the
root -virtfs exactly when qemu_version >= (4, 2). -/
def supportsDeviceRemap (qemu_version : List Nat) : Bool :=
  pyTupleGe qemu_version [4, 2]

/-- Feature flag from vm.py line 191: the onoatimehack preload shim is built
and injected exactly when qemu_version < (5, 0, 1). -/
def needsTimestampWorkaround (qemu_version : List Nat) : Bool :=
  pyTupleLt qemu_version [5, 0, 1]

/-! ## Version probing (vm.py lines 176-184)

The regex QEMU emulator version ([0-9]+(?:\.[0-9]+)*) is embedded directly:
re.search finds the leftmost position at which the literal prefix is
followed by at least one digit, and both starred constructs are greedy with
nothing after them, so maximal munch coincides with regex semantics. -/

/-- Maximal leading run of decimal digit characters, with the rest. -/
def digitSpan : List Char → List Char × List Char
  | [] => ([], [])
  | c :: t =>
    if c.isDigit then
      let (ds, r) := digitSpan t
      (c :: ds, r)
    else ([], c :: t)

theorem digitSpan_snd_length_le : ∀ l : List Char, (digitSpan l).2.length ≤ l.length := by
  intro l
  induction l with
  | nil => simp [digitSpan]
  | cons c t ih =>
    simp only [digitSpan]
    split
    · simpa using Nat.le_succ_of_le ih
    · simp

/-- Greedy match of (?:\.[0-9]+)* with explicit fuel: each iteration
consumes a dot and a nonempty digit run; returns the digit groups. -/
def parseDotGroupsAux : Nat → List Char → List (List Char)
  | 0, _ => []
  | fuel + 1, l =>
    match l with
    | '.' :: c :: rest =>
      if c.isDigit then
        let (ds, r) := digitSpan rest
        (c :: ds) :: parseDotGroupsAux fuel r
      else []
    | _ => []

/-- Greedy match of (?:\.[0-9]+)* .  Fuel l.length never runs out: every
iteration consumes at least two characters while spending one unit. -/
def parseDotGroups (l : List Char) : List (List Char) :=
  parseDotGroupsAux l.length l

/-- Consume a literal character list from the front, or fail. -/
def dropLit : List Char → List Char → Option (List Char)
  | [], cs => some cs
  | _ :: _, [] => none
  | p :: ps, c :: cs => if p == c then dropLit ps cs else none

/-- The literal part of the version regex. -/
def qemuVersionLit : List Char :=
  String.toList "QEMU emulator version "

/-- Attempt to match the whole version regex at the current position,
returning the digit groups of capture group 1. -/
def matchVersionAt (cs : List Char) : Option (List (List Char)) :=
  match dropLit qemuVersionLit cs with
  | none => none
  | some rest =>
    match digitSpan rest with
    | ([], _) => none
    | (ds, r) => some (ds :: parseDotGroups r)

/-- re.search for the version regex: try each position left to right
(matchVersionAt [] is none because the literal prefix is nonempty). -/
def reSearchVersion : List Char → Option (List (List Char))
  | [] => none
  | c :: t =>
    match matchVersionAt (c :: t) with
    | some g => some g
    | none => reSearchVersion t

/-- Numeric value of a digit character group (int(x) in Python). -/
def digitGroupVal (ds : List Char) : Nat :=
  ds.foldl (fun acc c => acc * 10 + (c.toNat - 48)) 0

/-- vm.py lines 176-184: search the -version output for the version regex
and convert capture group 1, split on dots, to a tuple of ints; none when
the pattern does not occur (the code then raises
Exception(could not determine QEMU version)). -/
def parseQemuVersion (out : String) : Option (List Nat) :=
  (reSearchVersion out.toList).map (fun gs => gs.map digitGroupVal)

example : parseQemuVersion "QEMU emulator version 5.0.1 (Debian)" = some [5, 0, 1] := by decide
example : parseQemuVersion "QEMU emulator version 4.2" = some [4, 2] := by decide
example : parseQemuVersion "no version here" = none := by decide
example : parseQemuVersion "xx QEMU emulator version 10.0.50.3 yy" = some [10, 0, 50, 3] := by
  decide

/-! ## Environment variables (os.environ.copy and env assignment) -/

/-- Environment lookup; os.environ has unique keys, modelled as the first
matching entry of an association list. -/
def envLookup (e : List (String × String)) (k : String) : Option String :=
  match e with
  | [] => none
  | kv :: t => if kv.1 = k then some kv.2 else envLookup t k

/-- Python dict assignment env[k] = v on a copied environ: replace the
binding if the key is present, otherwise add it. -/
def envSet (e : List (String × String)) (k v : String) : List (String × String) :=
  match e with
  | [] => [(k, v)]
  | kv :: t => if kv.1 = k then (k, v) :: t else kv :: envSet t k v

theorem envLookup_envSet_self (e : List (String × String)) (k v : String) :
    envLookup (envSet e k v) k = some v := by
  induction e with
  | nil => simp [envSet, envLookup]
  | cons kv t ih =>
    by_cases h : kv.1 = k
    · simp [envSet, envLookup, h]
    · simp [envSet, envLookup, h, ih]

theorem envLookup_envSet_ne (e : List (String × String)) (k v kq : String)
    (h : kq ≠ k) : envLookup (envSet e k v) kq = envLookup e kq := by
  induction e with
  | nil => simp [envSet, envLookup, Ne.symm h]
  | cons kv t ih =>
    by_cases h2 : kv.1 = k
    · simp [envSet, envLookup, h2, Ne.symm h]
    · simp only [envSet, if_neg h2, envLookup]
      by_cases h3 : kv.1 = kq <;> simp [h3, ih]

/-! ## Compatibility shim build (vm.py lines 153-168) -/

/-- Modelled from the spec: util.out_of_date is imported from util.py,
which is not part of the sources here.  Spec section 4.2: the build step
runs when the cached artifact is missing, or its single source input is
newer than the artifact; an artifact at least as new as the source is
reused.  File freshness is modelled by optional modification times. -/
def out_of_date (artifactMtime : Option Nat) (sourceMtime : Nat) : Bool :=
  match artifactMtime with
  | none => true
  | some m => decide (m < sourceMtime)

/-- vm.py lines 153-168 (_build_onoatimehack): ensure the build directory
exists, then compile dir/onoatimehack.so from onoatimehack.c only when
out_of_date, and return the artifact path in either case.  The result is
(artifact path, artifact mtime afterwards, whether _compile was invoked);
a successful compile stamps the artifact with the current time. -/
def _build_onoatimehack (buildDir : String) (artifactMtime : Option Nat)
    (sourceMtime now : Nat) : String × Option Nat × Bool :=
  let onoatimehack_so := buildDir ++ "/onoatimehack.so"
  if out_of_date artifactMtime sourceMtime then
    (onoatimehack_so, some now, true)
  else
    (onoatimehack_so, artifactMtime, false)

/-! ## Control channel events (vm.py lines 256-274) -/

/-- One observable delivery on the accepted control-channel connection:
either sock.recv returns a chunk of bytes (the empty chunk is a clean
close), or the read raises ConnectionResetError. -/
inductive RecvEvent where
  | chunk (bs : List Byte)
  | reset
  deriving DecidableEq

/-- What the listening socket yields: either socket.timeout from the
5-second accept, or an accepted connection that then delivers the given
events in order. -/
inductive AcceptOutcome where
  | timeout
  | connected (evs : List RecvEvent)
  deriving DecidableEq

/-- The receive loop of vm.py lines 263-274: repeatedly recv; a
ConnectionResetError is converted to an empty chunk; an empty chunk breaks
the loop; other chunks are appended to status_buf.  Returns none when the
event list is exhausted without a close, which is the situation in which
the blocking recv would never return (the loop hangs). -/
def recvLoop : List RecvEvent → Option (List Byte)
  | [] => none
  | RecvEvent.reset :: _ => some []
  | RecvEvent.chunk bs :: rest =>
    if bs.isEmpty then some [] else (recvLoop rest).map (fun acc => bs ++ acc)

/-! ## The supervised run (run_in_vm, vm.py lines 175-279) -/

/-- Everything the operating system and the external processes contribute
to one run_in_vm call: the hypervisor version output, KVM accessibility,
the host environment, the shim file timestamps, the events on the control
channel, and whether the QEMU child process eventually exits (the Popen
context manager waits for it on the way out). -/
structure World where
  qemuVersionOutput : String
  kvmAccessible : Bool
  hostEnviron : List (String × String)
  buildDir : String
  artifactMtime : Option Nat
  sourceMtime : Nat
  now : Nat
  accept : AcceptOutcome
  childExits : Bool

/-- Final outcome of a run: the call hangs forever, raises an exception,
or returns the guest exit status. -/
inductive Outcome where
  | hangs
  | raised (e : VmErr)
  | exited (n : Nat)
  deriving DecidableEq

/-- Observable trace of one run_in_vm call: its outcome, whether the QEMU
child was started, the environment it was started with, how many times
_compile ran, and whether the temporary directory and the control socket
path are still on disk after the call. -/
structure RunTrace where
  outcome : Outcome
  qemuStarted : Bool
  qemuEnv : Option (List (String × String))
  compiles : Nat
  tempDirOnDisk : Bool
  socketPathOnDisk : Bool
  deriving DecidableEq

/-- Intermediate result of the body of the Popen context manager. -/
inductive BodyRes where
  | hangs
  | exc (e : VmErr)
  | buf (bs : List Byte)
  deriving DecidableEq

/-- vm.py lines 186-279, after the version has been parsed successfully.
Control flow is embedded as follows: the two with-statements (temporary
directory at line 204 and Popen at line 223) release their resource however
their body finishes, except that nothing is released if the body never
finishes; Popen.__exit__ additionally waits for the child, so a child that
never exits turns any finished body into a hang.  Validation of the status
buffer (lines 275-279) happens inside the temporary-directory block but
after the Popen block. -/
def runWithVersion (w : World) (qemu_version : List Nat) : RunTrace :=
  let _multidevs := if supportsDeviceRemap qemu_version then ",multidevs=remap" else ""
  let buildRes :=
    if needsTimestampWorkaround qemu_version then
      some (_build_onoatimehack w.buildDir w.artifactMtime w.sourceMtime w.now)
    else none
  let env :=
    match buildRes with
    | some (onoatimehack_so, _, _) =>
      envSet w.hostEnviron "LD_PRELOAD"
        (onoatimehack_so ++ ":" ++ ((envLookup w.hostEnviron "LD_PRELOAD").getD ""))
    | none => w.hostEnviron
  let compiles :=
    match buildRes with
    | some (_, _, true) => 1
    | _ => 0
  let body : BodyRes :=
    match w.accept with
    | AcceptOutcome.timeout =>
      BodyRes.exc (VmErr.lostVM "QEMU did not connect within 5.0 seconds")
    | AcceptOutcome.connected evs =>
      match recvLoop evs with
      | none => BodyRes.hangs
      | some status_buf => BodyRes.buf status_buf
  let afterPopen : BodyRes :=
    match body with
    | BodyRes.hangs => BodyRes.hangs
    | r => if w.childExits then r else BodyRes.hangs
  let outcome : Outcome :=
    match afterPopen with
    | BodyRes.hangs => Outcome.hangs
    | BodyRes.exc e => Outcome.raised e
    | BodyRes.buf status_buf =>
      match validateStatus status_buf with
      | Except.error e => Outcome.raised e
      | Except.ok n => Outcome.exited n
  { outcome := outcome
    qemuStarted := true
    qemuEnv := some env
    compiles := compiles
    tempDirOnDisk := decide (outcome = Outcome.hangs)
    socketPathOnDisk := decide (outcome = Outcome.hangs) }

/-- run_in_vm (vm.py lines 175-279).  The version probe runs first; when
the regex finds no version the function raises before creating the
temporary directory, the socket, or the QEMU child. -/
def run_in_vm (w : World) : RunTrace :=
  match parseQemuVersion w.qemuVersionOutput with
  | none =>
    { outcome := Outcome.raised (VmErr.exception "could not determine QEMU version")
      qemuStarted := false
      qemuEnv := none
      compiles := 0
      tempDirOnDisk := false
      socketPathOnDisk := false }
  | some qemu_version => runWithVersion w qemu_version

/-- Capability flags derived from the -version output, as the spec data
model groups them: (supportsDeviceRemap, needsTimestampWorkaround). -/
def capabilityFlags (out : String) : Option (Bool × Bool) :=
  (parseQemuVersion out).map
    (fun v => (supportsDeviceRemap v, needsTimestampWorkaround v))

/-! ## Substring helpers for diagnostics -/

/-- Whether the first list is an initial segment of the second. -/
def startsList : List Char → List Char → Bool
  | [], _ => true
  | _ :: _, [] => false
  | a :: as, b :: bs => a == b && startsList as bs

/-- Whether the first list occurs contiguously inside the second. -/
def containsSub (needle : List Char) : List Char → Bool
  | [] => startsList needle []
  | c :: t => startsList needle (c :: t) || containsSub needle t

/-- Whether needle occurs contiguously inside hay. -/
def strContainsSub (hay needle : String) : Bool :=
  containsSub needle.toList hay.toList

/-- Whether a validation result is a LostVMError whose message has the
given text as a contiguous part. -/
def diagContains (r : Except VmErr Nat) (needle : String) : Bool :=
  match r with
  | Except.error (VmErr.lostVM m) => strContainsSub m needle
  | _ => false

/-! ## Claim theorems -/

/-- C2: the received buffers empty, abc-newline, 12-without-newline and
1-newline-2-newline are each rejected by the validation of run_in_vm with a
LostVMError instead of an exit code; for the non-empty buffers the
diagnostic carries the offending bytes (rendered through the repr slice of
line 278, which escapes the newline byte as backslash-n and shows printable
bytes literally, between quote characters). -/
theorem malformed_status_rejected :
    validateStatus (strB "") = Except.error (VmErr.lostVM "VM did not return status")
    ∧ validateStatus (strB "abc\n") = Except.error (VmErr.lostVM
        ("VM returned invalid status: " ++
          String.mk [Char.ofNat 39, 'a', 'b', 'c', Char.ofNat 92, 'n', Char.ofNat 39]))
    ∧ validateStatus (strB "12") = Except.error (VmErr.lostVM
        ("VM returned invalid status: " ++
          String.mk [Char.ofNat 39, '1', '2', Char.ofNat 39]))
    ∧ validateStatus (strB "1\n2\n") = Except.error (VmErr.lostVM
        ("VM returned invalid status: " ++
          String.mk [Char.ofNat 39, '1', Char.ofNat 92, 'n', '2', Char.ofNat 92, 'n', Char.ofNat 39]))
    ∧ diagContains (validateStatus (strB "abc\n")) "abc" = true
    ∧ diagContains (validateStatus (strB "abc\n")) (String.mk [Char.ofNat 92, 'n']) = true
    ∧ diagContains (validateStatus (strB "12")) "12" = true
    ∧ diagContains (validateStatus (strB "1\n2\n"))
        (String.mk ['1', Char.ofNat 92, 'n', '2', Char.ofNat 92, 'n']) = true := by
  decide

/-- C9: a buffer holding only a single newline byte is rejected with the
invalid-status LostVMError (its digit part is empty and the empty byte
string is not all-digits), not with the did-not-return-status error and
not as a parsed value. -/
theorem newline_only_rejected :
    validateStatus (strB "\n") = Except.error (VmErr.lostVM
      ("VM returned invalid status: " ++
        String.mk [Char.ofNat 39, Char.ofNat 92, 'n', Char.ofNat 39]))
    ∧ validateStatus (strB "\n") ≠ Except.error (VmErr.lostVM "VM did not return status")
    ∧ validateStatus (strB "\n") ≠ Except.ok 0 := by
  decide

/-- C3 counterexample: the claim fails on the code in two places.  First,
version 4.2.0 yields needsTimestampWorkaround = true (the tuple (4, 2, 0)
is below (5, 0, 1)), so its flag pair is (true, true) and not the claimed
(remap = true, wa = false).  Second, the claim says supportsDeviceRemap is
true exactly when the parsed version tuple is lexicographically at least
(4, 2, 0), but vm.py line 187 compares against the two-element tuple
(4, 2): the tuple (4, 2), which the probe parses from an output announcing
version 4.2, satisfies the code test while lying lexicographically below
(4, 2, 0). -/
theorem capability_flags_counterexample :
    capabilityFlags "QEMU emulator version 4.2.0" = some (true, true)
    ∧ capabilityFlags "QEMU emulator version 4.2.0" ≠ some (true, false)
    ∧ supportsDeviceRemap [4, 2] = true
    ∧ pyTupleGe [4, 2] [4, 2, 0] = false
    ∧ parseQemuVersion "QEMU emulator version 4.2" = some [4, 2] := by
  decide

theorem pyTupleLt_nil_right (l : List Nat) : pyTupleLt l [] = false := by
  cases l <;> rfl

/-- Characterization of the remap flag: qemu_version >= (4, 2) holds
lexicographically exactly for the tuple (4, 2) itself and the tuples at
least (4, 2, 0). -/
theorem supportsDeviceRemap_iff (v : List Nat) :
    supportsDeviceRemap v = true ↔ (v = [4, 2] ∨ pyTupleGe v [4, 2, 0] = true) := by
  rcases v with _ | ⟨a, _ | ⟨b, _ | ⟨c, rest⟩⟩⟩
  · decide
  · simp only [supportsDeviceRemap, pyTupleGe, pyTupleLt]
    split_ifs <;> simp_all
  · simp only [supportsDeviceRemap, pyTupleGe, pyTupleLt]
    split_ifs <;> simp_all [pyTupleLt_nil_right] <;> omega
  · simp only [supportsDeviceRemap, pyTupleGe, pyTupleLt]
    split_ifs <;> simp_all [pyTupleLt_nil_right]

/-- C3 (amended): the capability flags are a pure function of the parsed
version tuple under lexicographic tuple ordering; needsTimestampWorkaround
holds exactly when version < (5, 0, 1); supportsDeviceRemap holds exactly
when version = (4, 2) or version >= (4, 2, 0) (vm.py line 187 compares
against the two-element tuple (4, 2), which differs from the claimed
threshold (4, 2, 0) only at the tuple (4, 2) itself).  The concrete
versions give: 4.2.0 -> (remap = true, wa = true) since 4.2.0 < 5.0.1;
5.0.1 and 5.1.3 -> (true, false); 3.9.9 -> (false, true); and
5.0.0 -> (true, true). -/
theorem capability_flags_amended :
    (∀ v : List Nat,
      supportsDeviceRemap v = true ↔ (v = [4, 2] ∨ pyTupleGe v [4, 2, 0] = true))
    ∧ (∀ v : List Nat, needsTimestampWorkaround v = pyTupleLt v [5, 0, 1])
    ∧ capabilityFlags "QEMU emulator version 4.2.0" = some (true, true)
    ∧ capabilityFlags "QEMU emulator version 5.0.1" = some (true, false)
    ∧ capabilityFlags "QEMU emulator version 5.1.3" = some (true, false)
    ∧ capabilityFlags "QEMU emulator version 3.9.9" = some (false, true)
    ∧ capabilityFlags "QEMU emulator version 5.0.0" = some (true, true) :=
  ⟨supportsDeviceRemap_iff, fun _ => rfl, by decide, by decide, by decide, by decide, by decide⟩

/-- The validation of vm.py lines 275-279 accepts every encoded status in
0..255 and returns exactly that number. -/
theorem validateStatus_encode : ∀ n : Nat, n ≤ 255 →
    validateStatus (encodeStatus n) = Except.ok n := by
  decide

theorem encodeStatus_isEmpty (n : Nat) : (encodeStatus n).isEmpty = false := by
  unfold encodeStatus
  cases strB (Nat.repr n) <;> simp

/-- C1: status-message round trip.  For every n in 0..255, when the guest
writes the bytes of str(n) followed by one newline on the control channel
and the connection then closes cleanly, and the QEMU child exits, the
validation in run_in_vm accepts the buffer and the run returns exactly n
as its exit code. -/
theorem status_roundtrip (w : World) (n : Nat) (v : List Nat)
    (hn : n ≤ 255)
    (hv : parseQemuVersion w.qemuVersionOutput = some v)
    (hacc : w.accept = AcceptOutcome.connected
      [RecvEvent.chunk (encodeStatus n), RecvEvent.chunk []])
    (hch : w.childExits = true) :
    (run_in_vm w).outcome = Outcome.exited n := by
  simp only [run_in_vm, hv]
  simp only [runWithVersion, hacc, hch]
  simp [recvLoop, encodeStatus_isEmpty, validateStatus_encode n hn]

theorem status_roundtrip_witness :
    (run_in_vm
      { qemuVersionOutput := "QEMU emulator version 5.1.0"
        kvmAccessible := true
        hostEnviron := [("PATH", "/usr/bin")]
        buildDir := "build/vmtest"
        artifactMtime := none
        sourceMtime := 3
        now := 9
        accept := AcceptOutcome.connected
          [RecvEvent.chunk (encodeStatus 7), RecvEvent.chunk []]
        childExits := true }).outcome = Outcome.exited 7 :=
  status_roundtrip _ 7 [5, 1, 0] (by decide) (by decide) rfl rfl

/-- C5: when the -version output of the hypervisor contains no
dotted-integer version pattern, run_in_vm raises the version-unparseable
exception before any VM is launched: QEMU is never started, no environment
is assembled, no shim compile runs, no temporary directory or socket path
is ever created, and no fallback capability flags are produced. -/
theorem version_unparseable_fatal (w : World)
    (h : parseQemuVersion w.qemuVersionOutput = none) :
    run_in_vm w =
      { outcome := Outcome.raised (VmErr.exception "could not determine QEMU version")
        qemuStarted := false
        qemuEnv := none
        compiles := 0
        tempDirOnDisk := false
        socketPathOnDisk := false }
    ∧ capabilityFlags w.qemuVersionOutput = none := by
  constructor
  · simp only [run_in_vm, h]
  · simp [capabilityFlags, h]

theorem version_unparseable_fatal_witness :
    run_in_vm
      { qemuVersionOutput := "QEMU emulator version unknown"
        kvmAccessible := true
        hostEnviron := []
        buildDir := "build/vmtest"
        artifactMtime := none
        sourceMtime := 0
        now := 1
        accept := AcceptOutcome.timeout
        childExits := true } =
      { outcome := Outcome.raised (VmErr.exception "could not determine QEMU version")
        qemuStarted := false
        qemuEnv := none
        compiles := 0
        tempDirOnDisk := false
        socketPathOnDisk := false }
    ∧ capabilityFlags "QEMU emulator version unknown" = none :=
  version_unparseable_fatal _ (by decide)

/-- C4 counterexample: the accept timeout alone does not bound the run.
The LostVMError raised at vm.py line 260 propagates through the Popen
context manager, whose exit handler waits for the QEMU child; in a world
where no connection arrives and the child process never exits, run_in_vm
never terminates, contradicting the claim that the run terminates within
the bound plus small scheduling slack. -/
theorem timeout_can_hang :
    (run_in_vm
      { qemuVersionOutput := "QEMU emulator version 5.1.0"
        kvmAccessible := true
        hostEnviron := []
        buildDir := "build/vmtest"
        artifactMtime := some 5
        sourceMtime := 3
        now := 9
        accept := AcceptOutcome.timeout
        childExits := false }).outcome = Outcome.hangs := by
  decide

/-- C4 (amended): if no connection is accepted within the fixed 5-second
bound, run_in_vm raises the LostVM error QEMU did not connect within 5.0
seconds, does not retry the accept, and never returns an exit code; but
the error surfaces only after the QEMU child process exits, because the
Popen context manager waits for the child during unwinding, so termination
within the bound plus scheduling slack holds only when the child itself
terminates. -/
theorem timeout_lostvm (w : World) (v : List Nat)
    (hv : parseQemuVersion w.qemuVersionOutput = some v)
    (hacc : w.accept = AcceptOutcome.timeout) :
    (w.childExits = true →
      (run_in_vm w).outcome =
        Outcome.raised (VmErr.lostVM "QEMU did not connect within 5.0 seconds"))
    ∧ (∀ n, (run_in_vm w).outcome ≠ Outcome.exited n) := by
  constructor
  · intro hch
    simp only [run_in_vm, hv]
    simp only [runWithVersion, hacc, hch]
    simp
  · intro n
    simp only [run_in_vm, hv]
    simp only [runWithVersion, hacc]
    cases hch : w.childExits <;> simp [hch]

theorem timeout_lostvm_witness :
    (run_in_vm
      { qemuVersionOutput := "QEMU emulator version 5.1.0"
        kvmAccessible := true
        hostEnviron := []
        buildDir := "build/vmtest"
        artifactMtime := some 5
        sourceMtime := 3
        now := 9
        accept := AcceptOutcome.timeout
        childExits := true }).outcome =
      Outcome.raised (VmErr.lostVM "QEMU did not connect within 5.0 seconds") :=
  (timeout_lostvm _ [5, 1, 0] (by decide) rfl).1 rfl

theorem runWithVersion_tempDir (w : World) (v : List Nat) :
    (runWithVersion w v).tempDirOnDisk =
      decide ((runWithVersion w v).outcome = Outcome.hangs) :=
  rfl

theorem runWithVersion_socketPath (w : World) (v : List Nat) :
    (runWithVersion w v).socketPathOnDisk =
      decide ((runWithVersion w v).outcome = Outcome.hangs) :=
  rfl

/-- C7: guaranteed cleanup.  On every exit path of run_in_vm, that is
whenever the call terminates at all (successful exit-code return, accept
timeout, empty or malformed status, premature closure, or even the probe
failure before anything is created), the ephemeral temporary directory and
the control-channel socket path inside it are gone from disk after the
run; the context managers release them before the result or error is
surfaced. -/
theorem cleanup_on_every_exit (w : World)
    (h : (run_in_vm w).outcome ≠ Outcome.hangs) :
    (run_in_vm w).tempDirOnDisk = false
    ∧ (run_in_vm w).socketPathOnDisk = false := by
  cases hp : parseQemuVersion w.qemuVersionOutput with
  | none => simp [run_in_vm, hp]
  | some v =>
    simp only [run_in_vm, hp] at h ⊢
    rw [runWithVersion_tempDir, runWithVersion_socketPath]
    simp [h]

theorem cleanup_on_every_exit_witness :
    (run_in_vm
      { qemuVersionOutput := "QEMU emulator version 4.0.0"
        kvmAccessible := false
        hostEnviron := []
        buildDir := "build/vmtest"
        artifactMtime := none
        sourceMtime := 3
        now := 9
        accept := AcceptOutcome.connected [RecvEvent.chunk (strB "abc\n"), RecvEvent.chunk []]
        childExits := true }).tempDirOnDisk = false
    ∧ (run_in_vm
      { qemuVersionOutput := "QEMU emulator version 4.0.0"
        kvmAccessible := false
        hostEnviron := []
        buildDir := "build/vmtest"
        artifactMtime := none
        sourceMtime := 3
        now := 9
        accept := AcceptOutcome.connected [RecvEvent.chunk (strB "abc\n"), RecvEvent.chunk []]
        childExits := true }).socketPathOnDisk = false :=
  cleanup_on_every_exit _ (by decide)

/-- The receive loop treats a ConnectionResetError exactly like a clean
close: with any nonempty chunks delivered first, both closures stop the
collection with the same accumulated bytes, and later events are never
consumed. -/
theorem recvLoop_reset_eq_close (cs : List (List Byte)) (rest : List RecvEvent)
    (h : ∀ c ∈ cs, c ≠ []) :
    recvLoop (cs.map RecvEvent.chunk ++ RecvEvent.reset :: rest) = some (catLists cs)
    ∧ recvLoop (cs.map RecvEvent.chunk ++ RecvEvent.chunk [] :: rest) = some (catLists cs) := by
  induction cs with
  | nil => simp [recvLoop, catLists]
  | cons c cs ih =>
    have hc : c ≠ [] := h c (by simp)
    have hcs : ∀ x ∈ cs, x ≠ [] := fun x hx => h x (by simp [hx])
    have hce : c.isEmpty = false := by
      cases c
      · exact absurd rfl hc
      · rfl
    obtain ⟨ih1, ih2⟩ := ih hcs
    constructor <;> simp [recvLoop, hce, ih1, ih2, catLists]

/-- C8: connection-reset tolerance.  If the accepted connection delivers
some chunks and is then torn down by a connection reset while the host is
reading, run_in_vm behaves exactly as if the peer had closed cleanly at
that point: the whole run trace is identical, no error is raised for the
reset itself, and the bytes received so far go through the normal
validation policy. -/
theorem connection_reset_tolerated (w : World) (v : List Nat)
    (cs : List (List Byte)) (rest : List RecvEvent)
    (hv : parseQemuVersion w.qemuVersionOutput = some v)
    (h : ∀ c ∈ cs, c ≠ []) :
    run_in_vm { w with accept := AcceptOutcome.connected (cs.map RecvEvent.chunk ++ RecvEvent.reset :: rest) }
      = run_in_vm { w with accept := AcceptOutcome.connected (cs.map RecvEvent.chunk ++ RecvEvent.chunk [] :: rest) }
    ∧ (w.childExits = true →
      (run_in_vm { w with accept := AcceptOutcome.connected (cs.map RecvEvent.chunk ++ RecvEvent.reset :: rest) }).outcome
        = match validateStatus (catLists cs) with
          | Except.ok n => Outcome.exited n
          | Except.error e => Outcome.raised e) := by
  obtain ⟨h1, h2⟩ := recvLoop_reset_eq_close cs rest h
  constructor
  · simp [run_in_vm, runWithVersion, hv, h1, h2]
  · intro hch
    simp only [run_in_vm]
    simp only [runWithVersion, hv, hch]
    simp [h1, hv]
    cases hval : validateStatus (catLists cs) <;> simp [hval]

/-- Base world used to instantiate the connection-reset theorem. -/
def resetWorldBase : World :=
  { qemuVersionOutput := "QEMU emulator version 6.0.0"
    kvmAccessible := true
    hostEnviron := []
    buildDir := "build/vmtest"
    artifactMtime := some 5
    sourceMtime := 3
    now := 9
    accept := AcceptOutcome.timeout
    childExits := true }

theorem connection_reset_tolerated_witness :
    run_in_vm { resetWorldBase with accept := AcceptOutcome.connected ([strB "5", strB "5\n"].map RecvEvent.chunk ++ RecvEvent.reset :: []) }
      = run_in_vm { resetWorldBase with accept := AcceptOutcome.connected ([strB "5", strB "5\n"].map RecvEvent.chunk ++ RecvEvent.chunk [] :: []) } :=
  (connection_reset_tolerated resetWorldBase [6, 0, 0] [strB "5", strB "5\n"] []
    (by decide) (by decide)).1

/-- C6: shim build conditions.  The compatibility-shim build is attempted
only when needsTimestampWorkaround holds (otherwise no compile runs and
the host environment is passed through untouched); when it runs, _compile
is invoked exactly when the cached artifact is missing or older than its
single source file; a fresh artifact is reused with no rebuild; a stale
artifact triggers exactly one rebuild, after which a further call with the
source unchanged rebuilds nothing; and the artifact path
buildDir/onoatimehack.so is returned in every case. -/
theorem shim_build_conditions :
    (∀ (w : World) (v : List Nat), parseQemuVersion w.qemuVersionOutput = some v →
      needsTimestampWorkaround v = false →
      (run_in_vm w).compiles = 0 ∧ (run_in_vm w).qemuEnv = some w.hostEnviron)
    ∧ (∀ (w : World) (v : List Nat), parseQemuVersion w.qemuVersionOutput = some v →
      needsTimestampWorkaround v = true →
      (run_in_vm w).compiles =
        (if out_of_date w.artifactMtime w.sourceMtime then 1 else 0))
    ∧ (∀ (d : String) (a : Option Nat) (s n : Nat),
      (_build_onoatimehack d a s n).1 = d ++ "/onoatimehack.so")
    ∧ (∀ (d : String) (a : Option Nat) (s n : Nat),
      (_build_onoatimehack d a s n).2.2 = out_of_date a s)
    ∧ (∀ (d : String) (a : Option Nat) (s n n2 : Nat), s ≤ n →
      (_build_onoatimehack d (_build_onoatimehack d a s n).2.1 s n2).2.2 = false) := by
  refine ⟨?_, ?_, ?_, ?_, ?_⟩
  · intro w v hv hwa
    constructor
    · simp only [run_in_vm, hv]
      simp [runWithVersion, hwa]
    · simp only [run_in_vm, hv]
      simp [runWithVersion, hwa]
  · intro w v hv hwa
    simp only [run_in_vm, hv]
    by_cases hod : out_of_date w.artifactMtime w.sourceMtime <;>
      simp [runWithVersion, hwa, _build_onoatimehack, hod]
  · intro d a s n
    by_cases hod : out_of_date a s <;> simp [_build_onoatimehack, hod]
  · intro d a s n
    by_cases hod : out_of_date a s <;> simp [_build_onoatimehack, hod]
  · intro d a s n n2 hsn
    by_cases hod : out_of_date a s
    · have hns : out_of_date (some n) s = false := by
        simp only [out_of_date, decide_eq_false_iff_not]
        omega
      simp [_build_onoatimehack, hod, hns]
    · simp [_build_onoatimehack, hod]

theorem shim_build_conditions_witness :
    (_build_onoatimehack "build/vmtest" (some 5) 9 12).1 = "build/vmtest/onoatimehack.so"
    ∧ (_build_onoatimehack "build/vmtest" (some 5) 9 12).2.2 = out_of_date (some 5) 9
    ∧ (_build_onoatimehack "build/vmtest"
        (_build_onoatimehack "build/vmtest" (some 5) 9 12).2.1 9 20).2.2 = false :=
  ⟨shim_build_conditions.2.2.1 "build/vmtest" (some 5) 9 12,
   shim_build_conditions.2.2.2.1 "build/vmtest" (some 5) 9 12,
   shim_build_conditions.2.2.2.2 "build/vmtest" (some 5) 9 12 20 (by decide)⟩

/-- C10: when the timestamp workaround is active, the QEMU child is
started with the host environment changed only at LD_PRELOAD: the new
value is the shim path followed by a colon followed by the previous
LD_PRELOAD value (empty when unset), so a pre-existing preload list is
preserved after the shim, and every other variable is passed through
unchanged. -/
theorem ld_preload_env (w : World) (v : List Nat)
    (hv : parseQemuVersion w.qemuVersionOutput = some v)
    (hwa : needsTimestampWorkaround v = true) :
    (run_in_vm w).qemuEnv = some (envSet w.hostEnviron "LD_PRELOAD"
        ((w.buildDir ++ "/onoatimehack.so") ++ ":" ++
          ((envLookup w.hostEnviron "LD_PRELOAD").getD "")))
    ∧ envLookup ((run_in_vm w).qemuEnv.getD []) "LD_PRELOAD" =
        some ((w.buildDir ++ "/onoatimehack.so") ++ ":" ++
          ((envLookup w.hostEnviron "LD_PRELOAD").getD ""))
    ∧ (∀ k, k ≠ "LD_PRELOAD" →
        envLookup ((run_in_vm w).qemuEnv.getD []) k = envLookup w.hostEnviron k) := by
  have h1 : (run_in_vm w).qemuEnv = some (envSet w.hostEnviron "LD_PRELOAD"
      ((w.buildDir ++ "/onoatimehack.so") ++ ":" ++
        ((envLookup w.hostEnviron "LD_PRELOAD").getD ""))) := by
    simp only [run_in_vm, hv]
    by_cases hod : out_of_date w.artifactMtime w.sourceMtime <;>
      simp [runWithVersion, hwa, _build_onoatimehack, hod]
  refine ⟨h1, ?_, ?_⟩
  · rw [h1]
    simp [envLookup_envSet_self]
  · intro k hk
    rw [h1]
    simp [envLookup_envSet_ne _ _ _ _ hk]

theorem ld_preload_env_witness :
    (run_in_vm
      { qemuVersionOutput := "QEMU emulator version 4.1.1"
        kvmAccessible := true
        hostEnviron := [("PATH", "/usr/bin"), ("LD_PRELOAD", "/opt/other.so")]
        buildDir := "build/vmtest"
        artifactMtime := none
        sourceMtime := 3
        now := 9
        accept := AcceptOutcome.timeout
        childExits := true }).qemuEnv =
      some (envSet [("PATH", "/usr/bin"), ("LD_PRELOAD", "/opt/other.so")] "LD_PRELOAD"
        (("build/vmtest" ++ "/onoatimehack.so") ++ ":" ++
          ((envLookup [("PATH", "/usr/bin"), ("LD_PRELOAD", "/opt/other.so")] "LD_PRELOAD").getD ""))) :=
  (ld_preload_env _ [4, 1, 1] (by decide) (by decide)).1
